import Mathlib

/-!
Shallow embedding of `src/Backend/server.js` (AI-ChatBot backend).

The data model (userSchema, chatSchema), the four request handlers
(`/register`, `/login`, `/api/chat`, `/api/history`) and the completion
client `getAI21Response` are translated from the source; the external
collaborators (the bcrypt hashing primitive, the AI21 HTTP provider
reached through fetch, and MongoDB persistence) are modelled at their
boundary as explicit inputs.
-/

namespace AIChatBot

/-- A persisted user record, from userSchema (server.js lines 14-19):
fullName, username (unique, required), email (unique, sparse,
optional), password (required; the handlers store the bcrypt hash). -/
structure User where
  fullName : String
  username : String
  email : Option String
  password : String
deriving Repr, DecidableEq

/-- A persisted chat record, from chatSchema (server.js lines 21-26):
username, user (the submitted message), bot (the reply), createdAt
(defaulted to record-creation time, modelled as a Nat tick). -/
structure Chat where
  username : String
  user : String
  bot : String
  createdAt : Nat
deriving Repr, DecidableEq

/-- The two MongoDB collections backing the service. -/
structure Store where
  users : List User
  chats : List Chat
deriving Repr, DecidableEq

/-- JS truthiness of an optional string taken from req.body / req.query:
undefined (modelled as none) and the empty string are falsy. -/
def truthy : Option String → Bool
  | none => false
  | some s => !s.isEmpty

/-- Model of the external bcrypt.hash primitive: a salted one-way hash
at the given cost factor.  Real bcrypt output is a modular-crypt-format
string carrying the fixed prefix followed by the cost and the salted
digest; the model keeps that shape, which is what makes the output
distinguishable from every plaintext. -/
def bcryptHash (cost : Nat) (plain : String) : String :=
  "$2b$" ++ toString cost ++ "$" ++ plain

/-- Model of bcrypt.compare: verifies a plaintext against a stored
hash (the register handler always hashes at cost 10). -/
def bcryptCompare (plain stored : String) : Bool :=
  stored == bcryptHash 10 plain

/-- The JSON body-and-status a handler sends for register/login:
success and message, plus the username echoed on login success. -/
structure ApiResult where
  status : Nat
  success : Bool
  message : String
  username : Option String := none
deriving Repr, DecidableEq

/-- The key/value pairs res.json emits for a register/login result. -/
def apiResultJson (r : ApiResult) : List (String × String) :=
  [("success", if r.success then "true" else "false"),
   ("message", r.message)] ++
  (match r.username with
   | some u => [("username", u)]
   | none => [])

/-- app.post("/register") (server.js lines 36-55): validates presence
of all three fields, rejects an existing username found by
User.findOne, hashes the password with bcrypt at cost 10 and persists
the new user record. -/
def register (st : Store) (fullName username password : String) :
    ApiResult × Store :=
  if fullName.isEmpty || username.isEmpty || password.isEmpty then
    ({ status := 400, success := false, message := "All fields required" }, st)
  else
    match st.users.find? (fun u => u.username == username) with
    | some _ =>
      ({ status := 400, success := false, message := "User already exists" }, st)
    | none =>
      let hashedPassword := bcryptHash 10 password
      let newUser : User :=
        { fullName := fullName, username := username, email := none,
          password := hashedPassword }
      ({ status := 200, success := true, message := "Registration successful" },
       { st with users := st.users ++ [newUser] })

/-- app.post("/login") (server.js lines 57-74): validates presence,
looks the user up by username, compares the supplied password against
the stored hash with bcrypt.compare, and echoes the username on
success. -/
def login (st : Store) (username password : String) : ApiResult :=
  if username.isEmpty || password.isEmpty then
    { status := 400, success := false, message := "All fields required" }
  else
    match st.users.find? (fun u => u.username == username) with
    | none => { status := 404, success := false, message := "User not found" }
    | some user =>
      if bcryptCompare password user.password then
        { status := 200, success := true, message := "Login successful",
          username := some user.username }
      else
        { status := 401, success := false, message := "Incorrect password" }

/-- The nested message object of one provider choice. -/
structure ProviderMessage where
  content : Option String
deriving Repr, DecidableEq

/-- One candidate completion in the provider response envelope. -/
structure ProviderChoice where
  message : Option ProviderMessage
deriving Repr, DecidableEq

/-- What fetch to the AI21 endpoint produced when it did not throw: an
HTTP status, the raw body text, and the parsed choices array (none
when the JSON carries no choices field). -/
structure ProviderResponse where
  status : Nat
  body : String
  choices : Option (List ProviderChoice)
deriving Repr, DecidableEq

/-- fetch's Response.ok: status in the 2xx range. -/
def respOk (status : Nat) : Bool := 200 ≤ status && status < 300

/-- The failure kinds of the completion client: non-2xx status
(ProviderError carrying the status), 2xx with an empty or absent reply
(EmptyReply), network-level failure (TransportError). -/
inductive AIFailure where
  | providerError (status : Nat)
  | emptyReply
  | transportError
deriving Repr, DecidableEq

instance : DecidableEq (Except AIFailure String) := fun a b =>
  match a, b with
  | .ok x, .ok y =>
    if h : x = y then isTrue (by rw [h]) else isFalse (by simp [h])
  | .error x, .error y =>
    if h : x = y then isTrue (by rw [h]) else isFalse (by simp [h])
  | .ok _, .error _ => isFalse (by simp)
  | .error _, .ok _ => isFalse (by simp)

/-- Model of JS String.prototype.trim as the code applies it to the
provider's reply: strips leading and trailing whitespace. -/
def jsTrim (s : String) : String :=
  ⟨((s.data.dropWhile Char.isWhitespace).reverse.dropWhile
      Char.isWhitespace).reverse⟩

/-- The reply string the optional-chaining expression
json?.choices?.[0]?.message?.content?.trim() || "" extracts from the
response envelope (server.js line 99): the first choice's message
content trimmed, or the empty string when any level is absent. -/
def extractReply (resp : ProviderResponse) : String :=
  ((((resp.choices.bind List.head?).bind ProviderChoice.message).bind
    ProviderMessage.content).map jsTrim).getD ""

/-- getAI21Response (server.js lines 76-106) applied to the response
fetch returned: throws on non-2xx with the status, extracts and trims
the first choice's message content, throws when it is empty/absent. -/
def getAI21Response (resp : ProviderResponse) : Except AIFailure String :=
  if !respOk resp.status then
    .error (.providerError resp.status)
  else
    let reply := extractReply resp
    if reply.isEmpty then .error .emptyReply else .ok reply

/-- The network outcome of the fetch call: either a response arrived,
or the transport failed (timeout, DNS, connection reset), in which
case fetch itself throws. -/
inductive ProviderOutcome where
  | response (resp : ProviderResponse)
  | transportFailure
deriving Repr, DecidableEq

/-- The completion client as the chat handler sees it: a transport
failure surfaces as TransportError, otherwise getAI21Response runs on
the response. -/
def completeClient : ProviderOutcome → Except AIFailure String
  | .response resp => getAI21Response resp
  | .transportFailure => .error .transportError

/-- The JSON body-and-status of /api/chat: the reply field. -/
structure ChatResponse where
  status : Nat
  reply : String
deriving Repr, DecidableEq

/-- The fixed degraded-service reply substituted on any provider
failure (server.js line 118). -/
def degradedReply : String :=
  "⚠️ Sorry, I couldn't process that right now. Please try again later."

/-- The reply the chat handler produces for a non-empty message: the
client's reply on success, the degraded string on any failure kind
(the inner try/catch of server.js lines 114-119). -/
def producedReply (provider : ProviderOutcome) : String :=
  match completeClient provider with
  | .ok r => r
  | .error _ => degradedReply

/-- app.post("/api/chat") (server.js lines 108-131): validates message
presence, obtains a reply (degrading on provider failure), persists a
Chat entry when a truthy username is supplied, and returns the reply.
saveFails models chatEntry.save() rejecting, which the outer catch
turns into a 500 response. -/
def chat (st : Store) (now : Nat) (message : String)
    (username : Option String) (provider : ProviderOutcome)
    (saveFails : Bool) : ChatResponse × Store :=
  if message.isEmpty then
    ({ status := 400, reply := "Message required" }, st)
  else
    let reply := producedReply provider
    if truthy username then
      if saveFails then
        ({ status := 500, reply := "⚠️ Error processing your request." }, st)
      else
        ({ status := 200, reply := reply },
         { st with chats := st.chats ++
             [{ username := username.getD "", user := message, bot := reply,
                createdAt := now }] })
    else
      ({ status := 200, reply := reply }, st)

/-- The ordering .sort with createdAt ascending uses on chat entries. -/
def byTime (a b : Chat) : Prop := a.createdAt ≤ b.createdAt

instance : DecidableRel byTime := fun a b =>
  inferInstanceAs (Decidable (a.createdAt ≤ b.createdAt))

instance : IsTotal Chat byTime :=
  ⟨fun a b => Nat.le_total a.createdAt b.createdAt⟩

instance : IsTrans Chat byTime :=
  ⟨fun _ _ _ => Nat.le_trans⟩

/-- app.get("/api/history") (server.js lines 133-144): the empty array
when username is falsy, otherwise Chat.find with that username sorted
by createdAt ascending. -/
def history (st : Store) (username : Option String) : List Chat :=
  if truthy username then
    List.insertionSort byTime
      (st.chats.filter (fun c => c.username == username.getD ""))
  else
    []

/-- The key/value pairs res.json emits for one persisted Chat record:
the chatSchema field names with their values. -/
def chatJson (c : Chat) : List (String × String) :=
  [("username", c.username), ("user", c.user), ("bot", c.bot),
   ("createdAt", toString c.createdAt)]

/-- The unique index on username: at most one User per username. -/
def uniqueUsernames (users : List User) : Prop :=
  users.Pairwise (fun a b => a.username ≠ b.username)

/-- The sparse unique index on email: uniqueness is enforced only
among records that supply an email value. -/
def sparseEmailUnique (users : List User) : Prop :=
  users.Pairwise (fun a b => ∀ e, a.email = some e → b.email ≠ some e)

/-! ### Helper lemmas -/

/-- A register call with non-empty fields and a fresh username
evaluates to the success result and appends the hashed record. -/
theorem register_fresh_eq
    (st : Store) (fullName username password : String)
    (h1 : fullName.isEmpty = false) (h2 : username.isEmpty = false)
    (h3 : password.isEmpty = false)
    (hfresh : st.users.find? (fun u => u.username == username) = none) :
    register st fullName username password =
      ({ status := 200, success := true, message := "Registration successful" },
       { st with users := st.users ++
           [{ fullName := fullName, username := username, email := none,
              password := bcryptHash 10 password }] }) := by
  simp [register, h1, h2, h3, hfresh]

/-- A register call with non-empty fields whose username is already
present fails with the duplicate message and leaves the store
unchanged. -/
theorem register_dup_eq
    (st : Store) (fullName username password : String) (user : User)
    (h1 : fullName.isEmpty = false) (h2 : username.isEmpty = false)
    (h3 : password.isEmpty = false)
    (hfound : st.users.find? (fun u => u.username == username) = some user) :
    register st fullName username password =
      ({ status := 400, success := false, message := "User already exists" },
       st) := by
  simp [register, h1, h2, h3, hfound]

/-- The bcrypt model never returns its input: the hash carries the
modular-crypt prefix, so it is strictly longer than the plaintext. -/
theorem bcryptHash_ten_ne_plain (plain : String) :
    bcryptHash 10 plain ≠ plain := by
  intro h
  have hlen := congrArg String.length h
  have h10 : (toString (10 : Nat)).length = 2 := rfl
  have hd : ("$" : String).length = 1 := rfl
  have hp : ("$2b$" : String).length = 4 := rfl
  simp only [bcryptHash, String.length_append, h10, hd, hp] at hlen
  omega

/-- The bcrypt model's output starts with the character giving the
modular-crypt prefix, so it differs from any string starting
otherwise. -/
theorem bcryptHash_ne_of_head (cost : Nat) (plain s : String)
    (hs : s.data.head? ≠ some '$') : bcryptHash cost plain ≠ s := by
  intro h
  apply hs
  rw [← h]
  simp [bcryptHash, String.data_append]

/-! ### Claim theorems -/

/-- C1: for every chat request with a non-empty message, if the
completion client fails with any failure kind (ProviderError,
EmptyReply or TransportError), the chat handler still returns a 200
response whose reply is the fixed non-empty degraded-service string —
never a 500 because of the provider failure — and when a username is
supplied the persisted entry carries that degraded reply. -/
theorem chat_degrades_on_provider_failure
    (st : Store) (now : Nat) (message : String) (username : Option String)
    (provider : ProviderOutcome) (e : AIFailure)
    (hmsg : message.isEmpty = false)
    (hfail : completeClient provider = .error e) :
    (chat st now message username provider false).1 =
      { status := 200, reply := degradedReply } ∧
    degradedReply ≠ "" ∧
    (truthy username = true →
      (chat st now message username provider false).2.chats =
        st.chats ++ [{ username := username.getD "", user := message,
                       bot := degradedReply, createdAt := now }]) := by
  have hp : producedReply provider = degradedReply := by
    unfold producedReply
    rw [hfail]
  refine ⟨?_, by decide, fun htu => ?_⟩
  · cases htu : truthy username <;> simp [chat, hmsg, hp, htu]
  · simp [chat, hmsg, hp, htu]

/-- C1 witness: the theorem applied to a concrete request whose
transport fails. -/
theorem chat_degrades_on_provider_failure_witness :
    (chat ⟨[], []⟩ 5 "hi" (some "ab") .transportFailure false).1 =
      { status := 200, reply := degradedReply } ∧
    degradedReply ≠ "" ∧
    (truthy (some "ab") = true →
      (chat ⟨[], []⟩ 5 "hi" (some "ab") .transportFailure false).2.chats =
        [] ++ [{ username := (some "ab").getD "", user := "hi",
                 bot := degradedReply, createdAt := 5 }]) :=
  chat_degrades_on_provider_failure ⟨[], []⟩ 5 "hi" (some "ab")
    .transportFailure .transportError (by decide) (by decide)

/-- C2: with a non-empty message and a supplied (truthy) username,
chat appends a log entry carrying the original message and whichever
reply was produced and returns 200 when the save succeeds; a save
failure surfaces as a 500 request-level error with nothing persisted;
without a username the store is unchanged. -/
theorem chat_logging
    (st : Store) (now : Nat) (message : String) (u : String)
    (provider : ProviderOutcome)
    (hmsg : message.isEmpty = false) (hu : u.isEmpty = false) :
    ((chat st now message (some u) provider false).2.chats =
        st.chats ++ [{ username := u, user := message,
                       bot := producedReply provider, createdAt := now }] ∧
      (chat st now message (some u) provider false).1.status = 200) ∧
    ((chat st now message (some u) provider true).1.status = 500 ∧
      (chat st now message (some u) provider true).2 = st) ∧
    (∀ sf : Bool, (chat st now message none provider sf).2 = st) := by
  have htu : truthy (some u) = true := by simp [truthy, hu]
  refine ⟨⟨?_, ?_⟩, ⟨?_, ?_⟩, fun sf => ?_⟩ <;>
    simp [chat, hmsg, htu, truthy, hu]

/-- C2 witness: the theorem applied to a concrete request with a
successful provider response. -/
theorem chat_logging_witness :
    ((chat ⟨[], []⟩ 7 "hi" (some "ab")
        (.response ⟨200, "", some [⟨some ⟨some " hello "⟩⟩]⟩) false).2.chats =
        [] ++ [{ username := "ab", user := "hi",
                 bot := producedReply
                   (.response ⟨200, "", some [⟨some ⟨some " hello "⟩⟩]⟩),
                 createdAt := 7 }] ∧
      (chat ⟨[], []⟩ 7 "hi" (some "ab")
        (.response ⟨200, "", some [⟨some ⟨some " hello "⟩⟩]⟩) false).1.status =
        200) ∧
    ((chat ⟨[], []⟩ 7 "hi" (some "ab")
        (.response ⟨200, "", some [⟨some ⟨some " hello "⟩⟩]⟩) true).1.status =
        500 ∧
      (chat ⟨[], []⟩ 7 "hi" (some "ab")
        (.response ⟨200, "", some [⟨some ⟨some " hello "⟩⟩]⟩) true).2 =
        ⟨[], []⟩) ∧
    (∀ sf : Bool,
      (chat ⟨[], []⟩ 7 "hi" none
        (.response ⟨200, "", some [⟨some ⟨some " hello "⟩⟩]⟩) sf).2 =
        ⟨[], []⟩) :=
  chat_logging ⟨[], []⟩ 7 "hi" "ab"
    (.response ⟨200, "", some [⟨some ⟨some " hello "⟩⟩]⟩)
    (by decide) (by decide)

/-- C6: a chat request whose message is absent or empty returns the
MissingField failure (400 "Message required") immediately, with the
store unchanged and the outcome independent of the provider. -/
theorem chat_missing_message
    (st : Store) (now : Nat) (message : String) (username : Option String)
    (provider provider' : ProviderOutcome) (saveFails : Bool)
    (hmsg : message.isEmpty = true) :
    chat st now message username provider saveFails =
      ({ status := 400, reply := "Message required" }, st) ∧
    chat st now message username provider saveFails =
      chat st now message username provider' saveFails := by
  constructor <;> simp [chat, hmsg]

/-- C6 witness: the theorem applied to a concrete empty-message
request with two different provider outcomes. -/
theorem chat_missing_message_witness :
    chat ⟨[], [⟨"ab", "m", "r", 1⟩]⟩ 9 "" (some "ab") .transportFailure false =
      ({ status := 400, reply := "Message required" },
       ⟨[], [⟨"ab", "m", "r", 1⟩]⟩) ∧
    chat ⟨[], [⟨"ab", "m", "r", 1⟩]⟩ 9 "" (some "ab") .transportFailure false =
      chat ⟨[], [⟨"ab", "m", "r", 1⟩]⟩ 9 "" (some "ab")
        (.response ⟨200, "", none⟩) false :=
  chat_missing_message ⟨[], [⟨"ab", "m", "r", 1⟩]⟩ 9 "" (some "ab")
    .transportFailure (.response ⟨200, "", none⟩) false (by decide)

/-- C3: with non-empty fields and a username not yet registered, the
first register succeeds, a second register with the same username (any
other non-empty fields) fails with "User already exists" leaving the
store unchanged, and the at-most-one-User-per-username invariant is
preserved. -/
theorem register_duplicate
    (st : Store) (fullName username password fullName2 password2 : String)
    (h1 : fullName.isEmpty = false) (h2 : username.isEmpty = false)
    (h3 : password.isEmpty = false) (h4 : fullName2.isEmpty = false)
    (h5 : password2.isEmpty = false)
    (hfresh : st.users.find? (fun u => u.username == username) = none) :
    (register st fullName username password).1.success = true ∧
    (register (register st fullName username password).2
        fullName2 username password2).1 =
      { status := 400, success := false, message := "User already exists" } ∧
    (register (register st fullName username password).2
        fullName2 username password2).2 =
      (register st fullName username password).2 ∧
    (uniqueUsernames st.users →
      uniqueUsernames (register (register st fullName username password).2
        fullName2 username password2).2.users) := by
  have hr1 := register_fresh_eq st fullName username password h1 h2 h3 hfresh
  have hfind : ((register st fullName username password).2).users.find?
      (fun u => u.username == username) =
      some { fullName := fullName, username := username, email := none,
             password := bcryptHash 10 password } := by
    rw [hr1]
    simp [List.find?_append, hfresh]
  have hdup := register_dup_eq (register st fullName username password).2
    fullName2 username password2
    { fullName := fullName, username := username, email := none,
      password := bcryptHash 10 password } h4 h2 h5 hfind
  refine ⟨by rw [hr1], by rw [hdup], by rw [hdup], ?_⟩
  · intro huniq
    rw [hdup, hr1]
    show uniqueUsernames (st.users ++
      [{ fullName := fullName, username := username, email := none,
         password := bcryptHash 10 password }])
    unfold uniqueUsernames
    rw [List.pairwise_append]
    refine ⟨huniq, List.pairwise_singleton _ _, ?_⟩
    intro a ha b hb
    simp only [List.mem_singleton] at hb
    subst hb
    have := List.find?_eq_none.mp hfresh a ha
    simpa using this

/-- C3 witness: the theorem applied to the concrete double
registration of username "ab" on an empty store. -/
theorem register_duplicate_witness :
    (register ⟨[], []⟩ "A B" "ab" "pw1").1.success = true ∧
    (register (register ⟨[], []⟩ "A B" "ab" "pw1").2 "C D" "ab" "pw2").1 =
      { status := 400, success := false, message := "User already exists" } ∧
    (register (register ⟨[], []⟩ "A B" "ab" "pw1").2 "C D" "ab" "pw2").2 =
      (register ⟨[], []⟩ "A B" "ab" "pw1").2 ∧
    (uniqueUsernames (Store.users ⟨[], []⟩) →
      uniqueUsernames
        (register (register ⟨[], []⟩ "A B" "ab" "pw1").2 "C D" "ab" "pw2").2.users) :=
  register_duplicate ⟨[], []⟩ "A B" "ab" "pw1" "C D" "pw2"
    (by decide) (by decide) (by decide) (by decide) (by decide) (by decide)

/-- C4: a successful registration stores the bcrypt hash, never the
plaintext (the stored password differs from the supplied one), and the
response body is the fixed success/message pair carrying neither the
password nor the hash in any of its values. -/
theorem register_hashes_password
    (st : Store) (fullName username password : String)
    (h1 : fullName.isEmpty = false) (h2 : username.isEmpty = false)
    (h3 : password.isEmpty = false)
    (hfresh : st.users.find? (fun u => u.username == username) = none) :
    (register st fullName username password).2.users =
      st.users ++ [{ fullName := fullName, username := username, email := none,
                     password := bcryptHash 10 password }] ∧
    bcryptHash 10 password ≠ password ∧
    apiResultJson (register st fullName username password).1 =
      [("success", "true"), ("message", "Registration successful")] ∧
    ∀ kv ∈ apiResultJson (register st fullName username password).1,
      kv.2 ≠ bcryptHash 10 password := by
  have hr := register_fresh_eq st fullName username password h1 h2 h3 hfresh
  refine ⟨by rw [hr], bcryptHash_ten_ne_plain password, ?_, ?_⟩
  · rw [hr]
    simp [apiResultJson]
  · intro kv hkv
    rw [hr] at hkv
    simp [apiResultJson] at hkv
    rcases hkv with hkv | hkv <;> subst hkv
    · exact fun h => bcryptHash_ne_of_head 10 password "true" (by decide) h.symm
    · exact fun h => bcryptHash_ne_of_head 10 password "Registration successful"
        (by decide) h.symm

/-- C4 witness: the theorem applied to a concrete registration on an
empty store. -/
theorem register_hashes_password_witness :
    (register ⟨[], []⟩ "A B" "ab" "pw1").2.users =
      [] ++ [{ fullName := "A B", username := "ab", email := none,
               password := bcryptHash 10 "pw1" }] ∧
    bcryptHash 10 "pw1" ≠ "pw1" ∧
    apiResultJson (register ⟨[], []⟩ "A B" "ab" "pw1").1 =
      [("success", "true"), ("message", "Registration successful")] ∧
    ∀ kv ∈ apiResultJson (register ⟨[], []⟩ "A B" "ab" "pw1").1,
      kv.2 ≠ bcryptHash 10 "pw1" :=
  register_hashes_password ⟨[], []⟩ "A B" "ab" "pw1"
    (by decide) (by decide) (by decide) (by decide)

/-- C5: login with non-empty fields returns "User not found" (404)
when no user carries the username, "Incorrect password" (401) when the
stored hash does not verify, and success echoing the username when it
does. -/
theorem login_cases
    (st : Store) (username password : String)
    (hu : username.isEmpty = false) (hp : password.isEmpty = false) :
    (st.users.find? (fun u => u.username == username) = none →
      login st username password =
        { status := 404, success := false, message := "User not found" }) ∧
    (∀ user, st.users.find? (fun u => u.username == username) = some user →
      bcryptCompare password user.password = false →
      login st username password =
        { status := 401, success := false, message := "Incorrect password" }) ∧
    (∀ user, st.users.find? (fun u => u.username == username) = some user →
      bcryptCompare password user.password = true →
      login st username password =
        { status := 200, success := true, message := "Login successful",
          username := some user.username } ∧
      user.username = username) := by
  refine ⟨fun hnone => ?_, fun user hsome hcmp => ?_,
    fun user hsome hcmp => ⟨?_, ?_⟩⟩
  · simp [login, hu, hp, hnone]
  · simp [login, hu, hp, hsome, hcmp]
  · simp [login, hu, hp, hsome, hcmp]
  · have := List.find?_some hsome
    simpa using this

/-- C5 witness: the theorem applied to concrete stores exercising the
unknown-username, wrong-password and correct-password branches. -/
theorem login_cases_witness :
    login ⟨[], []⟩ "zz" "pw" =
      { status := 404, success := false, message := "User not found" } ∧
    login ⟨[{ fullName := "A B", username := "ab", email := none,
              password := bcryptHash 10 "pw1" }], []⟩ "ab" "wrong" =
      { status := 401, success := false, message := "Incorrect password" } ∧
    (login ⟨[{ fullName := "A B", username := "ab", email := none,
               password := bcryptHash 10 "pw1" }], []⟩ "ab" "pw1" =
      { status := 200, success := true, message := "Login successful",
        username := some "ab" } ∧
      ("ab" : String) = "ab") :=
  ⟨(login_cases ⟨[], []⟩ "zz" "pw" (by decide) (by decide)).1 (by decide),
   (login_cases ⟨[{ fullName := "A B", username := "ab", email := none,
                    password := bcryptHash 10 "pw1" }], []⟩ "ab" "wrong"
      (by decide) (by decide)).2.1
     { fullName := "A B", username := "ab", email := none,
       password := bcryptHash 10 "pw1" } (by decide) (by decide),
   (login_cases ⟨[{ fullName := "A B", username := "ab", email := none,
                    password := bcryptHash 10 "pw1" }], []⟩ "ab" "pw1"
      (by decide) (by decide)).2.2
     { fullName := "A B", username := "ab", email := none,
       password := bcryptHash 10 "pw1" } (by decide) (by decide)⟩

/-- C10: register creates the user with exactly fullName, username and
the hashed password, leaving email absent; it preserves the
all-emails-absent invariant, and a store in which every email is
absent satisfies the sparse email-uniqueness constraint vacuously. -/
theorem register_email_absent
    (st : Store) (fullName username password : String)
    (h1 : fullName.isEmpty = false) (h2 : username.isEmpty = false)
    (h3 : password.isEmpty = false)
    (hfresh : st.users.find? (fun u => u.username == username) = none) :
    (register st fullName username password).2.users =
      st.users ++ [{ fullName := fullName, username := username, email := none,
                     password := bcryptHash 10 password }] ∧
    ((∀ u ∈ st.users, u.email = none) →
      ∀ u ∈ (register st fullName username password).2.users, u.email = none) ∧
    (∀ users : List User, (∀ u ∈ users, u.email = none) →
      sparseEmailUnique users) := by
  have hr := register_fresh_eq st fullName username password h1 h2 h3 hfresh
  refine ⟨by rw [hr], ?_, ?_⟩
  · intro hall u hu
    rw [hr] at hu
    simp only [List.mem_append, List.mem_singleton] at hu
    rcases hu with hu | hu
    · exact hall u hu
    · rw [hu]
  · intro users hall
    unfold sparseEmailUnique
    induction users with
    | nil => exact List.Pairwise.nil
    | cons a l ih =>
      refine List.Pairwise.cons ?_ (ih fun u hu => hall u (by simp [hu]))
      intro b _ e hae
      rw [hall a (by simp)] at hae
      exact absurd hae (by simp)

/-- C10 witness: the theorem applied to a concrete registration on an
empty store. -/
theorem register_email_absent_witness :
    (register ⟨[], []⟩ "A B" "ab" "pw1").2.users =
      [] ++ [{ fullName := "A B", username := "ab", email := none,
               password := bcryptHash 10 "pw1" }] ∧
    ((∀ u ∈ Store.users ⟨[], []⟩, u.email = none) →
      ∀ u ∈ (register ⟨[], []⟩ "A B" "ab" "pw1").2.users, u.email = none) ∧
    (∀ users : List User, (∀ u ∈ users, u.email = none) →
      sparseEmailUnique users) :=
  register_email_absent ⟨[], []⟩ "A B" "ab" "pw1"
    (by decide) (by decide) (by decide) (by decide)

/-- C7: history with a supplied username returns exactly that user's
entries — a permutation of the filter by username — sorted by
createdAt ascending; a username with no entries yields the empty
sequence, and a request with no username yields the empty sequence
whatever the store holds. -/
theorem history_cases (st : Store) (u : String) (hu : u.isEmpty = false) :
    (history st (some u)).Perm
      (st.chats.filter (fun c => c.username == u)) ∧
    List.Sorted byTime (history st (some u)) ∧
    (st.chats.filter (fun c => c.username == u) = [] →
      history st (some u) = []) ∧
    (∀ st2 : Store, history st2 none = []) := by
  have hh : history st (some u) =
      List.insertionSort byTime
        (st.chats.filter (fun c => c.username == u)) := by
    simp [history, truthy, hu]
  refine ⟨?_, ?_, fun hf => ?_, fun st2 => rfl⟩
  · rw [hh]
    exact List.perm_insertionSort byTime _
  · rw [hh]
    exact List.sorted_insertionSort byTime _
  · rw [hh, hf]
    rfl

/-- C7 witness: the theorem applied to a concrete store with two
entries for "ab" out of chronological order and one for "cd". -/
theorem history_cases_witness :
    (history ⟨[], [⟨"ab", "m2", "r2", 2⟩, ⟨"ab", "m1", "r1", 1⟩,
                   ⟨"cd", "x", "y", 0⟩]⟩ (some "ab")).Perm
      ((Store.chats ⟨[], [⟨"ab", "m2", "r2", 2⟩, ⟨"ab", "m1", "r1", 1⟩,
                          ⟨"cd", "x", "y", 0⟩]⟩).filter
        (fun c => c.username == "ab")) ∧
    List.Sorted byTime
      (history ⟨[], [⟨"ab", "m2", "r2", 2⟩, ⟨"ab", "m1", "r1", 1⟩,
                     ⟨"cd", "x", "y", 0⟩]⟩ (some "ab")) ∧
    history ⟨[], []⟩ (some "zz") = [] ∧
    history ⟨[], [⟨"ab", "m", "r", 1⟩]⟩ none = [] :=
  ⟨(history_cases ⟨[], [⟨"ab", "m2", "r2", 2⟩, ⟨"ab", "m1", "r1", 1⟩,
       ⟨"cd", "x", "y", 0⟩]⟩ "ab" (by decide)).1,
   (history_cases ⟨[], [⟨"ab", "m2", "r2", 2⟩, ⟨"ab", "m1", "r1", 1⟩,
       ⟨"cd", "x", "y", 0⟩]⟩ "ab" (by decide)).2.1,
   (history_cases ⟨[], []⟩ "zz" (by decide)).2.2.1 (by decide),
   (history_cases ⟨[], []⟩ "zz" (by decide)).2.2.2 ⟨[], [⟨"ab", "m", "r", 1⟩]⟩⟩

/-- C8 counterexample: against a store holding one chat record,
history returns the record serialized with the chatSchema field names
username/user/bot/createdAt — not username/userMessage/botReply/
createdAt as the claim states. -/
theorem history_field_names_counterexample :
    ((history ⟨[], [⟨"ab", "hi", "yo", 0⟩]⟩ (some "ab")).map
        (fun c => (chatJson c).map Prod.fst)) =
      [["username", "user", "bot", "createdAt"]] ∧
    (["username", "user", "bot", "createdAt"] : List String) ≠
      ["username", "userMessage", "botReply", "createdAt"] := by
  constructor
  · decide
  · decide

/-- C8 (amended): every entry returned by history has the field set
{username, user, bot, createdAt}; the entry logged for a chat call
carries the submitted prompt in the user field and the reply chat
returned in the bot field, and appears in that user's history. -/
theorem history_entry_fields
    (st : Store) (now : Nat) (message : String) (u : String)
    (provider : ProviderOutcome)
    (hmsg : message.isEmpty = false) (hu : u.isEmpty = false) :
    (∀ st2 : Store, ∀ v : Option String, ∀ c ∈ history st2 v,
      (chatJson c).map Prod.fst = ["username", "user", "bot", "createdAt"]) ∧
    ({ username := u, user := message,
       bot := (chat st now message (some u) provider false).1.reply,
       createdAt := now } : Chat) ∈
      history (chat st now message (some u) provider false).2 (some u) := by
  have htu : truthy (some u) = true := by simp [truthy, hu]
  refine ⟨fun st2 v c hc => rfl, ?_⟩
  have hchat : chat st now message (some u) provider false =
      ({ status := 200, reply := producedReply provider },
       { st with chats := st.chats ++
           [{ username := u, user := message, bot := producedReply provider,
              createdAt := now }] }) := by
    simp [chat, hmsg, htu, truthy, hu]
  rw [hchat]
  have hmem : ∀ (st2 : Store) (c : Chat),
      c ∈ history st2 (some u) ↔ (c ∈ st2.chats ∧ c.username == u) := by
    intro st2 c
    simp only [history, truthy, hu, Bool.not_false, if_pos, Option.getD_some,
      (List.perm_insertionSort byTime _).mem_iff, List.mem_filter]
  rw [hmem]
  exact ⟨List.mem_append_right _ (by simp), by simp⟩

/-- C8 amended-claim witness: the theorem applied to a concrete chat
exchange followed by a history request. -/
theorem history_entry_fields_witness :
    (∀ st2 : Store, ∀ v : Option String, ∀ c ∈ history st2 v,
      (chatJson c).map Prod.fst = ["username", "user", "bot", "createdAt"]) ∧
    ({ username := "ab", user := "hi",
       bot := (chat ⟨[], []⟩ 3 "hi" (some "ab") .transportFailure false).1.reply,
       createdAt := 3 } : Chat) ∈
      history (chat ⟨[], []⟩ 3 "hi" (some "ab") .transportFailure false).2
        (some "ab") :=
  history_entry_fields ⟨[], []⟩ 3 "hi" "ab" .transportFailure
    (by decide) (by decide)

/-- C9: the completion client returns the trimmed first-choice message
content on a 2xx response whose extracted reply is non-empty, fails
with EmptyReply on a 2xx response whose reply is empty or absent, and
fails with ProviderError carrying the status on a non-2xx response. -/
theorem getAI21Response_cases (resp : ProviderResponse) :
    (respOk resp.status = true → (extractReply resp).isEmpty = false →
      getAI21Response resp = .ok (extractReply resp)) ∧
    (respOk resp.status = true → (extractReply resp).isEmpty = true →
      getAI21Response resp = .error .emptyReply) ∧
    (respOk resp.status = false →
      getAI21Response resp = .error (.providerError resp.status)) ∧
    (∀ choice rest, resp.choices = some (choice :: rest) →
      ∀ m, choice.message = some m → ∀ c, m.content = some c →
      extractReply resp = jsTrim c) := by
  refine ⟨fun hok hne => ?_, fun hok he => ?_, fun hbad => ?_, ?_⟩
  · simp [getAI21Response, hok, hne]
  · simp [getAI21Response, hok, he]
  · simp [getAI21Response, hbad]
  · intro choice rest hch m hm c hc
    simp [extractReply, hch, hm, hc]

/-- C9 witness: the theorem applied to concrete provider responses
exercising the success, non-2xx and empty-reply branches. -/
theorem getAI21Response_cases_witness :
    getAI21Response ⟨200, "", some [⟨some ⟨some " hello "⟩⟩]⟩ =
      .ok (extractReply ⟨200, "", some [⟨some ⟨some " hello "⟩⟩]⟩) ∧
    getAI21Response ⟨500, "boom", none⟩ = .error (.providerError 500) ∧
    getAI21Response ⟨200, "", some [⟨some ⟨some "  "⟩⟩]⟩ =
      .error .emptyReply ∧
    extractReply ⟨200, "", some [⟨some ⟨some " hello "⟩⟩]⟩ = jsTrim " hello " :=
  ⟨(getAI21Response_cases ⟨200, "", some [⟨some ⟨some " hello "⟩⟩]⟩).1
      (by decide) (by decide),
   (getAI21Response_cases ⟨500, "boom", none⟩).2.2.1 (by decide),
   (getAI21Response_cases ⟨200, "", some [⟨some ⟨some "  "⟩⟩]⟩).2.1
      (by decide) (by decide),
   (getAI21Response_cases ⟨200, "", some [⟨some ⟨some " hello "⟩⟩]⟩).2.2.2
      ⟨some ⟨some " hello "⟩⟩ [] rfl ⟨some " hello "⟩ rfl " hello " rfl⟩

end AIChatBot
